import Mathlib

/- Verification of the daemonbase process-management module (src/process.rs),
   unix implementation. Shallow embedding: paths are modelled as lists of
   components (mirroring std::path on Unix), fallible system calls are
   modelled through explicit OS-model records whose fields give the success
   or failure of each call, and side effects (chroot, setgid, setuid,
   writing the PID file, resolving a user name) are recorded as event
   traces. -/

namespace Daemonbase

/-! Path model.  Rust paths on Unix decompose into components; we model the
two kinds that matter here: the root directory and normal components.
`Path::join`/`push` replaces the whole path when the argument is absolute
and appends components otherwise; `Path::strip_prefix` succeeds exactly
when the base components form a prefix of the path components and returns
the remaining components. -/

inductive Component where
  | rootDir : Component
  | normal : String → Component
deriving DecidableEq

structure RPath where
  components : List Component
deriving DecidableEq

/-- Component-list prefix test, mirroring the component-wise comparison
performed by `Path::strip_prefix`. -/
def isPrefixOfComp : List Component → List Component → Bool
  | [], _ => true
  | _ :: _, [] => false
  | a :: as, b :: bs => decide (a = b) && isPrefixOfComp as bs

/-- A path is absolute on Unix iff its first component is the root
directory (`Path::is_absolute`). -/
def RPath.isAbsolute (p : RPath) : Bool :=
  match p.components with
  | Component.rootDir :: _ => true
  | _ => false

/-- Model of `Path::join`: an absolute argument replaces the path, a
relative argument is appended component-wise. -/
def RPath.join (p q : RPath) : RPath :=
  if q.isAbsolute then q else RPath.mk (p.components ++ q.components)

/-- Model of `Path::strip_prefix`: succeeds iff `base`'s components are a
prefix of `p`'s components, returning the remaining components. -/
def RPath.stripPrefix (p base : RPath) : Option RPath :=
  if isPrefixOfComp base.components p.components then
    some (RPath.mk (p.components.drop base.components.length))
  else none

/-- The path `/`, i.e. `Path::new("/")`. -/
def rootPath : RPath := RPath.mk [Component.rootDir]

/-- A path `p` is under a base directory iff the base's components are a
prefix of `p`'s components; this is exactly the condition under which
`Path::strip_prefix` succeeds. -/
def RPath.isUnder (p base : RPath) : Bool :=
  isPrefixOfComp base.components p.components

/-! Identity model.  `UserId` keeps the user name together with the
numeric user id and the user's primary group id, resolved eagerly at
construction time (src/process.rs, UserId).  The `c_name` field of the
Rust struct is the C-string form of `name`; its construction succeeds
exactly when `name` contains no NUL byte, which is the check modelled in
`UserId.try_from` below. -/

structure UserId where
  name : String
  uid : Nat
  gid : Nat
deriving DecidableEq

structure GroupId where
  name : String
  gid : Nat
deriving DecidableEq

/-- The process configuration (src/process.rs, Config): optional PID-file
path, working directory, chroot directory, user and group. -/
structure Config where
  pid_file : Option RPath
  working_dir : Option RPath
  chroot : Option RPath
  user : Option UserId
  group : Option GroupId
deriving DecidableEq

/-! Process operations. -/

/-- Model of `Process::adjust_path` (src/process.rs lines 63-69): with a
configured chroot, strip the chroot prefix and re-root at `/`; without
one, return the path unchanged.  `none` models the `StripPrefixError`
returned when the path is not under the chroot. -/
def Process.adjust_path (cfg : Config) (path : RPath) : Option RPath :=
  match cfg.chroot with
  | some ch => (RPath.stripPrefix path ch).map (fun rest => rootPath.join rest)
  | none => some path

/-- The directory selected by `Process::change_working_dir`
(src/process.rs lines 320-342): the configured working directory, else the
chroot directory, and in background mode defaulting further to `/`;
`none` means the working directory is not changed. -/
def Process.change_working_dir_path (cfg : Config) (background : Bool) : Option RPath :=
  let path := Option.or cfg.working_dir cfg.chroot
  if background then Option.or path (some rootPath) else path

/-- The working directory after `Process::setup_daemon` ran with the given
`background` flag: `setup_daemon` calls `change_working_dir` with `true`
in its background branch (line 106) and with `false` otherwise (line 116);
`set_current_dir` itself is modelled as succeeding.  When no directory is
selected the working directory `cwd` is left unchanged. -/
def Process.setup_daemon_cwd (cfg : Config) (background : Bool) (cwd : RPath) : RPath :=
  (Process.change_working_dir_path cfg background).getD cwd

/-- Events recording the side-effecting steps of `drop_privileges`, in the
order attempted. -/
inductive PEvent where
  | chrootE : RPath → PEvent
  | initGroupsE : String → Nat → PEvent
  | setGidE : Nat → PEvent
  | setUidE : Nat → PEvent
  | writePidE : Nat → PEvent
deriving DecidableEq

/-- OS model for the process operations: success of each system call, and
the current pid. -/
structure ProcOS where
  pid : Nat
  chroot_ok : RPath → Bool
  initgroups_ok : String → Nat → Bool
  setgid_ok : Nat → Bool
  setuid_ok : Nat → Bool
  write_pid_ok : Bool

/-- Model of `Process::set_user_and_group` (src/process.rs lines 145-253):
a no-op without a configured user; otherwise the target group id is the
configured group's id, defaulting to the user's primary group id, and the
calls attempted in order are initgroups, setresgid, setresuid, stopping at
the first failure.  The returned Bool is success, the list the trace of
attempted calls. -/
def Process.set_user_and_group (os : ProcOS) (cfg : Config) : Bool × List PEvent :=
  match cfg.user with
  | none => (true, [])
  | some user =>
    let gid := (cfg.group.map GroupId.gid).getD user.gid
    if os.initgroups_ok user.name gid then
      if os.setgid_ok gid then
        (os.setuid_ok user.uid,
         [PEvent.initGroupsE user.name gid, PEvent.setGidE gid,
          PEvent.setUidE user.uid])
      else (false, [PEvent.initGroupsE user.name gid, PEvent.setGidE gid])
    else (false, [PEvent.initGroupsE user.name gid])

/-- The chroot step of `drop_privileges` (src/process.rs lines 130-135):
attempted only when a chroot path is configured. -/
def Process.chroot_step (os : ProcOS) (cfg : Config) : Bool × List PEvent :=
  match cfg.chroot with
  | some path => (os.chroot_ok path, [PEvent.chrootE path])
  | none => (true, [])

/-- Model of `Process::write_pid_file` (src/process.rs lines 292-301):
writes the current pid when a PID file is held (it is held exactly when a
PID-file path is configured and `create_pid_file` succeeded). -/
def Process.write_pid_file (os : ProcOS) (cfg : Config) : Bool × List PEvent :=
  match cfg.pid_file with
  | some _ => (os.write_pid_ok, [PEvent.writePidE os.pid])
  | none => (true, [])

/-- Model of `Process::drop_privileges` (src/process.rs lines 129-142):
chroot first (if configured), then the identity switch, then the PID-file
write, each failure returning immediately. -/
def Process.drop_privileges (os : ProcOS) (cfg : Config) : Bool × List PEvent :=
  let c := Process.chroot_step os cfg
  if c.1 then
    let g := Process.set_user_and_group os cfg
    if g.1 then
      let w := Process.write_pid_file os cfg
      (w.1, c.2 ++ g.2 ++ w.2)
    else (false, c.2 ++ g.2)
  else (false, c.2)

/-! User-name resolution model (src/process.rs, UserId::try_from). -/

/-- Result of `nix::unistd::User::from_name`: a resolved user (uid and
primary gid), no such user, or a resolution failure. -/
inductive ResolveResult where
  | found : Nat → Nat → ResolveResult
  | notFound : ResolveResult
  | failed : ResolveResult
deriving DecidableEq

/-- OS model for user-name resolution. -/
structure NameOS where
  user_from_name : String → ResolveResult

/-- The error cases of `UserId::try_from` (src/process.rs lines 522-540);
the Rust code formats these as strings, the constructor identifies which
message is produced. -/
inductive UserIdError where
  | invalidName : String → UserIdError
  | unknownUser : String → UserIdError
  | resolveFailed : String → UserIdError
deriving DecidableEq

/-- Event recording a call of `User::from_name`, i.e. an attempt to
resolve a user name on the host. -/
inductive NameEvent where
  | resolveUserE : String → NameEvent
deriving DecidableEq

/-- The NUL character. -/
def nulChar : Char := Char.ofNat 0

/-- Model of `UserId::try_from` (src/process.rs lines 522-540): building
the C-string form first, which fails exactly when the name contains a NUL
byte, and only then calling `User::from_name`.  The trace records the
resolution attempts. -/
def UserId.try_from (os : NameOS) (name : String) :
    Except UserIdError UserId × List NameEvent :=
  if name.data.contains nulChar then
    (Except.error (UserIdError.invalidName name), [])
  else
    match os.user_from_name name with
    | ResolveResult.found uid gid =>
        (Except.ok (UserId.mk name uid gid), [NameEvent.resolveUserE name])
    | ResolveResult.notFound =>
        (Except.error (UserIdError.unknownUser name), [NameEvent.resolveUserE name])
    | ResolveResult.failed =>
        (Except.error (UserIdError.resolveFailed name), [NameEvent.resolveUserE name])

/-- Model of `Config::with_user` (src/process.rs lines 454-457): parse the
user name via `UserId::try_from` and store the result in the
configuration. -/
def Config.with_user (os : NameOS) (cfg : Config) (v : String) :
    Except UserIdError Config × List NameEvent :=
  match UserId.try_from os v with
  | (Except.ok u, t) =>
      (Except.ok (Config.mk cfg.pid_file cfg.working_dir cfg.chroot (some u) cfg.group), t)
  | (Except.error e, t) => (Except.error e, t)

/-! Socket inventory model (src/process.rs, EnvSockets). -/

/-- A socket address (IPv4 or IPv6), kept abstract as host and port. -/
structure SocketAddr where
  ip : String
  port : Nat
deriving DecidableEq

/-- The type of socket represented by a file descriptor (src/process.rs,
SocketType). -/
inductive SocketType where
  | Udp : SocketType
  | Tcp : SocketType
deriving DecidableEq

/-- Information about one inherited socket (src/process.rs, SocketInfo). -/
structure SocketInfo where
  socket_type : SocketType
  socket_addr : SocketAddr
  raw_fd : Int
deriving DecidableEq

/-- The socket inventory (src/process.rs, EnvSockets): an ordered list of
socket descriptors. -/
structure EnvSockets where
  fds : List SocketInfo
deriving DecidableEq

/-- OS model for the socket inventory: the current pid, what probing a
file descriptor yields (the combination of getsockname, getsockopt and
the address conversion in `SocketInfo::from_fd`), and whether setting the
FD_CLOEXEC flag on a descriptor succeeds. -/
structure SockOS where
  pid : Nat
  from_fd : Int → Option (SocketType × SocketAddr)
  fcntl_cloexec_ok : Int → Bool

/-- Model of `SocketInfo::from_fd` (src/process.rs lines 795-828): probe
the descriptor; on success the stored raw_fd is the probed descriptor. -/
def SocketInfo.from_fd (os : SockOS) (fd : Int) : Option SocketInfo :=
  (os.from_fd fd).map (fun p => SocketInfo.mk p.1 p.2 fd)

/-- Model of `SocketInfo::finalize` (src/process.rs lines 778-785): set
FD_CLOEXEC; on success return the owned descriptor (modelled by its raw
fd), otherwise nothing. -/
def SocketInfo.finalize (os : SockOS) (si : SocketInfo) : Option Int :=
  if os.fcntl_cloexec_ok si.raw_fd then some si.raw_fd else none

/-- src/process.rs line 612. -/
def SD_LISTEN_FDS_START : Int := 3

/-- src/process.rs line 613. -/
def MAX_LISTEN_FDS : Nat := 32

/-- Model of Rust `str::parse::<usize>`: an optional leading plus sign
(code point 43) followed by at least one ASCII digit, rejecting anything
else and values exceeding usize::MAX. -/
def parseUsize (s : String) : Option Nat :=
  let ds := match s.data with
    | c :: rest => if c = Char.ofNat 43 then rest else s.data
    | [] => []
  if ds.isEmpty then none
  else if ds.all Char.isDigit then
    let n := ds.foldl (fun acc c => acc * 10 + (c.toNat - 48)) 0
    if n < 2 ^ 64 then some n else none
  else none

/-- The LISTEN_PID and LISTEN_FDS environment variables; `none` models an
absent variable. -/
structure Env where
  listen_pid : Option String
  listen_fds : Option String
deriving DecidableEq

/-- The descriptors probed for a given parsed LISTEN_FDS count
(src/process.rs lines 654-664): the count is clamped to `MAX_LISTEN_FDS`
(`clamp(0, 32)` on a usize is the minimum with 32) and descriptors are
numbered consecutively from `SD_LISTEN_FDS_START`. -/
def probedFds (num_fds : Nat) : List Int :=
  (List.range (min num_fds MAX_LISTEN_FDS)).map
    (fun i => SD_LISTEN_FDS_START + Int.ofNat i)

/-- Model of `EnvSockets::from_env` (src/process.rs lines 646-674).
Returns the inventory together with the environment as left behind.  Note
that the source removes the two variables whenever `unset_environment` is
true, also when the LISTEN_PID check failed, although its documentation
comment (lines 625-628) states removal happens only when the pid
matched. -/
def EnvSockets.from_env (os : SockOS) (unset_environment : Bool) (env : Env) :
    EnvSockets × Env :=
  let own_pid := toString os.pid
  let var_pid := env.listen_pid.getD ""
  let fds : List SocketInfo :=
    if var_pid ≠ "" ∧ own_pid = var_pid then
      match env.listen_fds.bind parseUsize with
      | some num_fds => (probedFds num_fds).filterMap (SocketInfo.from_fd os)
      | none => []
    else []
  let env2 : Env :=
    if unset_environment then Env.mk none none else env
  (EnvSockets.mk fds, env2)

/-- Model of `EnvSockets::is_empty` (src/process.rs lines 679-681). -/
def EnvSockets.is_empty (s : EnvSockets) : Bool :=
  s.fds.isEmpty

/-- The kind-and-address match used by the queries and the consuming
operations (src/process.rs lines 687-701 and 732-737). -/
def SocketInfo.matchKind (v : SocketInfo) (ty : SocketType) (addr : SocketAddr) : Bool :=
  decide (v.socket_type = ty) && decide (v.socket_addr = addr)

/-- Model of `EnvSockets::has_udp` (src/process.rs lines 687-691). -/
def EnvSockets.has_udp (s : EnvSockets) (addr : SocketAddr) : Bool :=
  s.fds.any (fun v => SocketInfo.matchKind v SocketType.Udp addr)

/-- Model of `EnvSockets::has_tcp` (src/process.rs lines 697-701). -/
def EnvSockets.has_tcp (s : EnvSockets) (addr : SocketAddr) : Bool :=
  s.fds.any (fun v => SocketInfo.matchKind v SocketType.Tcp addr)

/-- Model of `Iterator::position`: index of the first element satisfying
the predicate. -/
def listPosition {α : Type} (p : α → Bool) : List α → Option Nat
  | [] => none
  | x :: xs => if p x then some 0 else (listPosition p xs).map (fun i => i + 1)

/-- Model of `EnvSockets::remove` (src/process.rs lines 732-737): locate
the first descriptor of the given kind and address, remove it from the
inventory and finalize it.  The inner `none` branch of the match on the
looked-up element is unreachable since the position is in bounds. -/
def EnvSockets.remove (os : SockOS) (ty : SocketType) (addr : SocketAddr)
    (s : EnvSockets) : Option Int × EnvSockets :=
  match listPosition (fun v => SocketInfo.matchKind v ty addr) s.fds with
  | none => (none, s)
  | some idx =>
    match s.fds.get? idx with
    | some si => (SocketInfo.finalize os si, EnvSockets.mk (s.fds.eraseIdx idx))
    | none => (none, EnvSockets.mk (s.fds.eraseIdx idx))

/-- Model of `EnvSockets::pop` (src/process.rs lines 739-744): locate the
first descriptor of the given kind, remove it and finalize it. -/
def EnvSockets.pop (os : SockOS) (ty : SocketType) (s : EnvSockets) :
    Option Int × EnvSockets :=
  match listPosition (fun v => decide (v.socket_type = ty)) s.fds with
  | none => (none, s)
  | some idx =>
    match s.fds.get? idx with
    | some si => (SocketInfo.finalize os si, EnvSockets.mk (s.fds.eraseIdx idx))
    | none => (none, EnvSockets.mk (s.fds.eraseIdx idx))

/-- Model of `EnvSockets::take_udp` (src/process.rs lines 712-714). -/
def EnvSockets.take_udp (os : SockOS) (addr : SocketAddr) (s : EnvSockets) :
    Option Int × EnvSockets :=
  EnvSockets.remove os SocketType.Udp addr s

/-- Model of `EnvSockets::pop_udp` (src/process.rs lines 716-718). -/
def EnvSockets.pop_udp (os : SockOS) (s : EnvSockets) : Option Int × EnvSockets :=
  EnvSockets.pop os SocketType.Udp s

/-- Model of `EnvSockets::take_tcp` (src/process.rs lines 720-722). -/
def EnvSockets.take_tcp (os : SockOS) (addr : SocketAddr) (s : EnvSockets) :
    Option Int × EnvSockets :=
  EnvSockets.remove os SocketType.Tcp addr s

/-- Model of `EnvSockets::pop_tcp` (src/process.rs lines 724-726). -/
def EnvSockets.pop_tcp (os : SockOS) (s : EnvSockets) : Option Int × EnvSockets :=
  EnvSockets.pop os SocketType.Tcp s

/-! Helper lemmas. -/

theorem isPrefixOfComp_append (l r : List Component) :
    isPrefixOfComp l (l ++ r) = true := by
  induction l with
  | nil => rfl
  | cons a as ih => simp [isPrefixOfComp, ih]

theorem listPosition_append_cons {α : Type} (p : α → Bool) (l1 : List α) (x : α)
    (l2 : List α) (h1 : ∀ y ∈ l1, p y = false) (hx : p x = true) :
    listPosition p (l1 ++ x :: l2) = some l1.length := by
  induction l1 with
  | nil => simp [listPosition, hx]
  | cons a as ih =>
      have ha : p a = false := h1 a (by simp)
      have ih2 := ih (fun y hy => h1 y (by simp [hy]))
      simp [listPosition, ha, ih2]

theorem listPosition_eq_none {α : Type} (p : α → Bool) (l : List α)
    (h : ∀ y ∈ l, p y = false) : listPosition p l = none := by
  induction l with
  | nil => rfl
  | cons a as ih =>
      have ha : p a = false := h a (by simp)
      simp [listPosition, ha, ih (fun y hy => h y (by simp [hy]))]

theorem get_append_cons {α : Type} (l1 : List α) (x : α) (l2 : List α) :
    (l1 ++ x :: l2).get? l1.length = some x := by
  induction l1 with
  | nil => rfl
  | cons a as ih => simpa using ih

theorem eraseIdx_append_cons {α : Type} (l1 : List α) (x : α) (l2 : List α) :
    (l1 ++ x :: l2).eraseIdx l1.length = l1 ++ l2 := by
  induction l1 with
  | nil => rfl
  | cons a as ih => simp [List.eraseIdx, ih]

theorem getElem_append_cons {α : Type} (l1 : List α) (x : α) (l2 : List α)
    (h : l1.length < (l1 ++ x :: l2).length) :
    (l1 ++ x :: l2)[l1.length] = x := by
  induction l1 with
  | nil => rfl
  | cons a as ih => simpa using ih (by simp)

theorem remove_split (os : SockOS) (ty : SocketType) (addr : SocketAddr)
    (l1 : List SocketInfo) (x : SocketInfo) (l2 : List SocketInfo)
    (h1 : ∀ y ∈ l1, SocketInfo.matchKind y ty addr = false)
    (hx : SocketInfo.matchKind x ty addr = true) :
    EnvSockets.remove os ty addr (EnvSockets.mk (l1 ++ x :: l2))
      = (SocketInfo.finalize os x, EnvSockets.mk (l1 ++ l2)) := by
  have hpos :=
    listPosition_append_cons (fun v => SocketInfo.matchKind v ty addr) l1 x l2 h1 hx
  simp [EnvSockets.remove, hpos, get_append_cons, eraseIdx_append_cons,
    getElem_append_cons]

theorem pop_split (os : SockOS) (ty : SocketType)
    (l1 : List SocketInfo) (x : SocketInfo) (l2 : List SocketInfo)
    (h1 : ∀ y ∈ l1, decide (y.socket_type = ty) = false)
    (hx : x.socket_type = ty) :
    EnvSockets.pop os ty (EnvSockets.mk (l1 ++ x :: l2))
      = (SocketInfo.finalize os x, EnvSockets.mk (l1 ++ l2)) := by
  have hxb : decide (x.socket_type = ty) = true := by simp [hx]
  have hpos :=
    listPosition_append_cons (fun v => decide (v.socket_type = ty)) l1 x l2 h1 hxb
  simp [EnvSockets.pop, hpos, get_append_cons, eraseIdx_append_cons,
    getElem_append_cons]

theorem has_tcp_false_iff (t : EnvSockets) (a : SocketAddr) :
    EnvSockets.has_tcp t a = false ↔
      ∀ y ∈ t.fds, SocketInfo.matchKind y SocketType.Tcp a = false := by
  simp [EnvSockets.has_tcp, List.any_eq_false]

theorem has_udp_false_iff (t : EnvSockets) (a : SocketAddr) :
    EnvSockets.has_udp t a = false ↔
      ∀ y ∈ t.fds, SocketInfo.matchKind y SocketType.Udp a = false := by
  simp [EnvSockets.has_udp, List.any_eq_false]

theorem has_tcp_true_iff (t : EnvSockets) (a : SocketAddr) :
    EnvSockets.has_tcp t a = true ↔
      ∃ z ∈ t.fds, SocketInfo.matchKind z SocketType.Tcp a = true := by
  simp [EnvSockets.has_tcp, List.any_eq_true]

theorem remove_not_present (os : SockOS) (ty : SocketType) (addr : SocketAddr)
    (s : EnvSockets)
    (h : ∀ y ∈ s.fds, SocketInfo.matchKind y ty addr = false) :
    EnvSockets.remove os ty addr s = (none, s) := by
  simp [EnvSockets.remove, listPosition_eq_none _ _ h]

/-! Claim theorems. -/

/-- C4: with a chroot directory `C` configured, `adjust_path` maps `C`
joined with a relative suffix `s` to `/` joined with `s`, and fails on any
path not under `C`; with no chroot configured it returns the path
unchanged. -/
theorem adjust_path_spec (cfg : Config) (ch p s : RPath) :
    (cfg.chroot = some ch →
      (s.isAbsolute = false →
        Process.adjust_path cfg (ch.join s) = some (rootPath.join s)) ∧
      (RPath.isUnder p ch = false → Process.adjust_path cfg p = none)) ∧
    (cfg.chroot = none → Process.adjust_path cfg p = some p) := by
  constructor
  · intro hch
    constructor
    · intro habs
      have hjoin : ch.join s = RPath.mk (ch.components ++ s.components) := by
        simp [RPath.join, habs]
      simp [Process.adjust_path, hch, hjoin, RPath.stripPrefix,
        isPrefixOfComp_append, List.drop_left]
    · intro hund
      simp only [RPath.isUnder] at hund
      simp [Process.adjust_path, hch, RPath.stripPrefix, hund]
  · intro hch
    simp [Process.adjust_path, hch]

/-- Witness for C4 at a concrete chroot `/jail`, suffix `etc` and a path
`/other` that is not under the chroot. -/
theorem adjust_path_spec_witness :
    ((Config.mk none none (some (RPath.mk [Component.rootDir, Component.normal "jail"])) none none).chroot
        = some (RPath.mk [Component.rootDir, Component.normal "jail"]) ∧
      (RPath.mk [Component.normal "etc"]).isAbsolute = false ∧
      Process.adjust_path
        (Config.mk none none (some (RPath.mk [Component.rootDir, Component.normal "jail"])) none none)
        ((RPath.mk [Component.rootDir, Component.normal "jail"]).join
          (RPath.mk [Component.normal "etc"]))
        = some (rootPath.join (RPath.mk [Component.normal "etc"]))) ∧
    ((RPath.mk [Component.rootDir, Component.normal "other"]).isUnder
        (RPath.mk [Component.rootDir, Component.normal "jail"]) = false ∧
      Process.adjust_path
        (Config.mk none none (some (RPath.mk [Component.rootDir, Component.normal "jail"])) none none)
        (RPath.mk [Component.rootDir, Component.normal "other"]) = none) :=
  ⟨⟨rfl, rfl,
    ((adjust_path_spec
        (Config.mk none none (some (RPath.mk [Component.rootDir, Component.normal "jail"])) none none)
        (RPath.mk [Component.rootDir, Component.normal "jail"])
        (RPath.mk [Component.rootDir, Component.normal "other"])
        (RPath.mk [Component.normal "etc"])).1 rfl).1 rfl⟩,
   ⟨by decide,
    ((adjust_path_spec
        (Config.mk none none (some (RPath.mk [Component.rootDir, Component.normal "jail"])) none none)
        (RPath.mk [Component.rootDir, Component.normal "jail"])
        (RPath.mk [Component.rootDir, Component.normal "other"])
        (RPath.mk [Component.normal "etc"])).1 rfl).2 (by decide)⟩⟩

/-- C6: the working directory selected by `setup_daemon` is the configured
working directory if present, else the chroot directory if present, else
`/` in background mode only; in foreground mode with neither configured
the working directory is left unchanged. -/
theorem setup_daemon_cwd_spec (cfg : Config) (background : Bool) (cwd : RPath) :
    (∀ w, cfg.working_dir = some w →
        Process.setup_daemon_cwd cfg background cwd = w) ∧
    (∀ c, cfg.working_dir = none → cfg.chroot = some c →
        Process.setup_daemon_cwd cfg background cwd = c) ∧
    (cfg.working_dir = none → cfg.chroot = none →
        Process.setup_daemon_cwd cfg true cwd = rootPath) ∧
    (cfg.working_dir = none → cfg.chroot = none →
        Process.setup_daemon_cwd cfg false cwd = cwd) := by
  refine ⟨?_, ?_, ?_, ?_⟩
  · intro w hw
    cases background <;>
      simp [Process.setup_daemon_cwd, Process.change_working_dir_path, hw, Option.or]
  · intro c hw hc
    cases background <;>
      simp [Process.setup_daemon_cwd, Process.change_working_dir_path, hw, hc, Option.or]
  · intro hw hc
    simp [Process.setup_daemon_cwd, Process.change_working_dir_path, hw, hc, Option.or]
  · intro hw hc
    simp [Process.setup_daemon_cwd, Process.change_working_dir_path, hw, hc, Option.or]

/-- Witness for C6 at a concrete configuration with only a chroot
directory configured. -/
theorem setup_daemon_cwd_spec_witness :
    ((Config.mk none none (some (RPath.mk [Component.rootDir, Component.normal "jail"])) none none).working_dir = none ∧
      (Config.mk none none (some (RPath.mk [Component.rootDir, Component.normal "jail"])) none none).chroot
        = some (RPath.mk [Component.rootDir, Component.normal "jail"])) ∧
    Process.setup_daemon_cwd
        (Config.mk none none (some (RPath.mk [Component.rootDir, Component.normal "jail"])) none none)
        false rootPath
      = RPath.mk [Component.rootDir, Component.normal "jail"] :=
  ⟨⟨rfl, rfl⟩,
    (setup_daemon_cwd_spec
      (Config.mk none none (some (RPath.mk [Component.rootDir, Component.normal "jail"])) none none)
      false rootPath).2.1 (RPath.mk [Component.rootDir, Component.normal "jail"]) rfl rfl⟩

/-- C1 (code bug): with `unset_environment = true` and a LISTEN_PID value
that does not match the current process id, `from_env` nevertheless
removes both environment variables, contradicting the claim and the
function's own documentation comment. -/
theorem from_env_clears_env_despite_pid_mismatch :
    (Env.mk (some "999999") (some "2")).listen_pid
        ≠ some (toString (SockOS.mk 1234 (fun _ => none) (fun _ => true)).pid) ∧
    (EnvSockets.from_env (SockOS.mk 1234 (fun _ => none) (fun _ => true)) true
        (Env.mk (some "999999") (some "2"))).2 = Env.mk none none :=
  ⟨by decide, rfl⟩

/-- C2: whenever the LISTEN_PID variable is absent or empty (its default
is the empty string), or differs from the current process id, or the
LISTEN_FDS variable is absent or unparseable as a usize, the returned
inventory is empty. -/
theorem from_env_empty_inventory (os : SockOS) (u : Bool) (env : Env)
    (h : env.listen_pid.getD "" = "" ∨ env.listen_pid.getD "" ≠ toString os.pid ∨
         env.listen_fds.bind parseUsize = none) :
    (EnvSockets.from_env os u env).1.is_empty = true := by
  rcases h with h | h | h
  · have hcond : ¬ (env.listen_pid.getD "" ≠ "" ∧
        toString os.pid = env.listen_pid.getD "") := fun hc => hc.1 h
    simp [EnvSockets.from_env, EnvSockets.is_empty, hcond]
  · have hcond : ¬ (env.listen_pid.getD "" ≠ "" ∧
        toString os.pid = env.listen_pid.getD "") := fun hc => h hc.2.symm
    simp [EnvSockets.from_env, EnvSockets.is_empty, hcond]
  · by_cases hc : env.listen_pid.getD "" ≠ "" ∧ toString os.pid = env.listen_pid.getD ""
    · simp [EnvSockets.from_env, EnvSockets.is_empty, hc, h]
    · simp [EnvSockets.from_env, EnvSockets.is_empty, hc]

/-- Witness for C2: LISTEN_PID absent yields an empty inventory. -/
theorem from_env_empty_inventory_witness :
    ((Env.mk none none).listen_pid.getD "" = "" ∨
      (Env.mk none none).listen_pid.getD ""
          ≠ toString (SockOS.mk 1 (fun _ => none) (fun _ => true)).pid ∨
      (Env.mk none none).listen_fds.bind parseUsize = none) ∧
    (EnvSockets.from_env (SockOS.mk 1 (fun _ => none) (fun _ => true)) false
        (Env.mk none none)).1.is_empty = true :=
  ⟨Or.inl rfl,
    from_env_empty_inventory (SockOS.mk 1 (fun _ => none) (fun _ => true)) false
      (Env.mk none none) (Or.inl rfl)⟩

/-- C10: a user name containing a NUL byte is rejected with the invalid
user name error by `UserId::try_from` and by `Config::with_user`, without
any attempt to resolve the name on the host (the resolution trace is
empty). -/
theorem try_from_nul_rejected (os : NameOS) (cfg : Config) (name : String)
    (h : name.data.contains nulChar = true) :
    UserId.try_from os name = (Except.error (UserIdError.invalidName name), []) ∧
    Config.with_user os cfg name
      = (Except.error (UserIdError.invalidName name), []) := by
  have hm : nulChar ∈ name.data := by simpa using h
  have h1 : UserId.try_from os name
      = (Except.error (UserIdError.invalidName name), []) := by
    simp [UserId.try_from, hm]
  exact ⟨h1, by simp [Config.with_user, h1]⟩

/-- Witness for C10 at a concrete name with an interior NUL byte, against
a host on which every name would resolve. -/
theorem try_from_nul_rejected_witness :
    (String.mk [Char.ofNat 97, nulChar, Char.ofNat 98]).data.contains nulChar = true ∧
    UserId.try_from (NameOS.mk (fun _ => ResolveResult.found 7 8))
        (String.mk [Char.ofNat 97, nulChar, Char.ofNat 98])
      = (Except.error (UserIdError.invalidName
          (String.mk [Char.ofNat 97, nulChar, Char.ofNat 98])), []) :=
  ⟨by decide,
    (try_from_nul_rejected (NameOS.mk (fun _ => ResolveResult.found 7 8))
      (Config.mk none none none none none)
      (String.mk [Char.ofNat 97, nulChar, Char.ofNat 98]) (by decide)).1⟩

/-- C7: `drop_privileges` attempts the chroot first (exactly when one is
configured), then the identity switch, then the PID-file write; a failing
step returns an error with no later step attempted, and a succeeding run
produces the three traces in that order, each once. -/
theorem drop_privileges_order (os : ProcOS) (cfg : Config) :
    ((Process.chroot_step os cfg).1 = false →
        Process.drop_privileges os cfg = (false, (Process.chroot_step os cfg).2)) ∧
    ((Process.chroot_step os cfg).1 = true →
      (Process.set_user_and_group os cfg).1 = false →
        Process.drop_privileges os cfg
          = (false,
             (Process.chroot_step os cfg).2 ++ (Process.set_user_and_group os cfg).2)) ∧
    ((Process.chroot_step os cfg).1 = true →
      (Process.set_user_and_group os cfg).1 = true →
        Process.drop_privileges os cfg
          = ((Process.write_pid_file os cfg).1,
             (Process.chroot_step os cfg).2 ++ (Process.set_user_and_group os cfg).2
               ++ (Process.write_pid_file os cfg).2)) ∧
    (∀ path, cfg.chroot = some path →
        Process.chroot_step os cfg = (os.chroot_ok path, [PEvent.chrootE path])) ∧
    (cfg.chroot = none → Process.chroot_step os cfg = (true, [])) := by
  refine ⟨?_, ?_, ?_, ?_, ?_⟩
  · intro h
    simp [Process.drop_privileges, h]
  · intro h1 h2
    simp [Process.drop_privileges, h1, h2]
  · intro h1 h2
    simp [Process.drop_privileges, h1, h2]
  · intro path h
    simp [Process.chroot_step, h]
  · intro h
    simp [Process.chroot_step, h]

/-- Witness for C7 at a configuration with chroot, user and PID file all
configured and every system call succeeding. -/
theorem drop_privileges_order_witness :
    (Process.chroot_step
        (ProcOS.mk 42 (fun _ => true) (fun _ _ => true) (fun _ => true) (fun _ => true) true)
        (Config.mk (some (RPath.mk [Component.rootDir, Component.normal "run"])) none
          (some (RPath.mk [Component.rootDir, Component.normal "jail"]))
          (some (UserId.mk "svc" 10 20)) none)).1 = true ∧
    (Process.set_user_and_group
        (ProcOS.mk 42 (fun _ => true) (fun _ _ => true) (fun _ => true) (fun _ => true) true)
        (Config.mk (some (RPath.mk [Component.rootDir, Component.normal "run"])) none
          (some (RPath.mk [Component.rootDir, Component.normal "jail"]))
          (some (UserId.mk "svc" 10 20)) none)).1 = true ∧
    Process.drop_privileges
        (ProcOS.mk 42 (fun _ => true) (fun _ _ => true) (fun _ => true) (fun _ => true) true)
        (Config.mk (some (RPath.mk [Component.rootDir, Component.normal "run"])) none
          (some (RPath.mk [Component.rootDir, Component.normal "jail"]))
          (some (UserId.mk "svc" 10 20)) none)
      = ((Process.write_pid_file
            (ProcOS.mk 42 (fun _ => true) (fun _ _ => true) (fun _ => true) (fun _ => true) true)
            (Config.mk (some (RPath.mk [Component.rootDir, Component.normal "run"])) none
              (some (RPath.mk [Component.rootDir, Component.normal "jail"]))
              (some (UserId.mk "svc" 10 20)) none)).1,
         (Process.chroot_step
            (ProcOS.mk 42 (fun _ => true) (fun _ _ => true) (fun _ => true) (fun _ => true) true)
            (Config.mk (some (RPath.mk [Component.rootDir, Component.normal "run"])) none
              (some (RPath.mk [Component.rootDir, Component.normal "jail"]))
              (some (UserId.mk "svc" 10 20)) none)).2
           ++ (Process.set_user_and_group
                (ProcOS.mk 42 (fun _ => true) (fun _ _ => true) (fun _ => true) (fun _ => true) true)
                (Config.mk (some (RPath.mk [Component.rootDir, Component.normal "run"])) none
                  (some (RPath.mk [Component.rootDir, Component.normal "jail"]))
                  (some (UserId.mk "svc" 10 20)) none)).2
           ++ (Process.write_pid_file
                (ProcOS.mk 42 (fun _ => true) (fun _ _ => true) (fun _ => true) (fun _ => true) true)
                (Config.mk (some (RPath.mk [Component.rootDir, Component.normal "run"])) none
                  (some (RPath.mk [Component.rootDir, Component.normal "jail"]))
                  (some (UserId.mk "svc" 10 20)) none)).2) :=
  ⟨rfl, rfl,
    (drop_privileges_order
      (ProcOS.mk 42 (fun _ => true) (fun _ _ => true) (fun _ => true) (fun _ => true) true)
      (Config.mk (some (RPath.mk [Component.rootDir, Component.normal "run"])) none
        (some (RPath.mk [Component.rootDir, Component.normal "jail"]))
        (some (UserId.mk "svc" 10 20)) none)).2.2.1 rfl rfl⟩

/-- C8: `set_user_and_group` is a no-op without a configured user; with a
user, the group id set is the configured group's id, defaulting to the
user's primary group id, the user id set is the user's id, and any trace
containing the setuid call is exactly initgroups, setgid, setuid in that
order — the group change strictly precedes the user change. -/
theorem set_user_and_group_spec (os : ProcOS) (cfg : Config) :
    (cfg.user = none → Process.set_user_and_group os cfg = (true, [])) ∧
    (∀ u, cfg.user = some u →
      (∀ g, PEvent.setGidE g ∈ (Process.set_user_and_group os cfg).2 →
          g = (cfg.group.map GroupId.gid).getD u.gid) ∧
      (∀ v, PEvent.setUidE v ∈ (Process.set_user_and_group os cfg).2 →
          v = u.uid ∧
          (Process.set_user_and_group os cfg).2
            = [PEvent.initGroupsE u.name ((cfg.group.map GroupId.gid).getD u.gid),
               PEvent.setGidE ((cfg.group.map GroupId.gid).getD u.gid),
               PEvent.setUidE u.uid]) ∧
      (os.initgroups_ok u.name ((cfg.group.map GroupId.gid).getD u.gid) = true →
        os.setgid_ok ((cfg.group.map GroupId.gid).getD u.gid) = true →
        Process.set_user_and_group os cfg
          = (os.setuid_ok u.uid,
             [PEvent.initGroupsE u.name ((cfg.group.map GroupId.gid).getD u.gid),
              PEvent.setGidE ((cfg.group.map GroupId.gid).getD u.gid),
              PEvent.setUidE u.uid]))) := by
  constructor
  · intro h
    simp [Process.set_user_and_group, h]
  · intro u hu
    refine ⟨?_, ?_, ?_⟩
    · intro g hg
      by_cases h1 : os.initgroups_ok u.name ((cfg.group.map GroupId.gid).getD u.gid) = true <;>
        by_cases h2 : os.setgid_ok ((cfg.group.map GroupId.gid).getD u.gid) = true <;>
          simp_all [Process.set_user_and_group, hu]
    · intro v hv
      by_cases h1 : os.initgroups_ok u.name ((cfg.group.map GroupId.gid).getD u.gid) = true <;>
        by_cases h2 : os.setgid_ok ((cfg.group.map GroupId.gid).getD u.gid) = true <;>
          simp_all [Process.set_user_and_group, hu]
    · intro h1 h2
      simp [Process.set_user_and_group, hu, h1, h2]

/-- Witness for C8 at a configuration with a user and no explicit group,
so the target group id is the user's primary group id. -/
theorem set_user_and_group_spec_witness :
    ((Config.mk none none none (some (UserId.mk "svc" 10 20)) none).user
        = some (UserId.mk "svc" 10 20) ∧
      (ProcOS.mk 42 (fun _ => true) (fun _ _ => true) (fun _ => true) (fun _ => true)
          true).initgroups_ok "svc" 20 = true ∧
      (ProcOS.mk 42 (fun _ => true) (fun _ _ => true) (fun _ => true) (fun _ => true)
          true).setgid_ok 20 = true) ∧
    Process.set_user_and_group
        (ProcOS.mk 42 (fun _ => true) (fun _ _ => true) (fun _ => true) (fun _ => true) true)
        (Config.mk none none none (some (UserId.mk "svc" 10 20)) none)
      = ((ProcOS.mk 42 (fun _ => true) (fun _ _ => true) (fun _ => true) (fun _ => true)
            true).setuid_ok 10,
         [PEvent.initGroupsE "svc" 20, PEvent.setGidE 20, PEvent.setUidE 10]) :=
  ⟨⟨rfl, rfl, rfl⟩,
    ((set_user_and_group_spec
        (ProcOS.mk 42 (fun _ => true) (fun _ _ => true) (fun _ => true) (fun _ => true) true)
        (Config.mk none none none (some (UserId.mk "svc" 10 20)) none)).2
      (UserId.mk "svc" 10 20) rfl).2.2 rfl rfl⟩

/-- C3: in an inventory holding exactly one TCP descriptor `x` at address
`a` (and some TCP descriptor at another address `b` among the remaining
entries), `take_tcp a` removes `x` and returns its descriptor (the
FD_CLOEXEC flag being settable); afterwards `has_tcp a` is false while
`has_tcp b` remains true, a second take for `a` returns nothing, and in
general a take for a kind and address with no matching descriptor returns
nothing and leaves the inventory unchanged. -/
theorem take_tcp_spec (os : SockOS) (l1 l2 : List SocketInfo) (x : SocketInfo)
    (a b : SocketAddr)
    (hxt : x.socket_type = SocketType.Tcp) (hxa : x.socket_addr = a)
    (hrest : ∀ y ∈ l1 ++ l2, SocketInfo.matchKind y SocketType.Tcp a = false)
    (hb : ∃ z ∈ l1 ++ l2, SocketInfo.matchKind z SocketType.Tcp b = true)
    (hok : os.fcntl_cloexec_ok x.raw_fd = true) :
    EnvSockets.take_tcp os a (EnvSockets.mk (l1 ++ x :: l2))
      = (some x.raw_fd, EnvSockets.mk (l1 ++ l2)) ∧
    EnvSockets.has_tcp (EnvSockets.mk (l1 ++ l2)) a = false ∧
    EnvSockets.has_tcp (EnvSockets.mk (l1 ++ l2)) b = true ∧
    EnvSockets.take_tcp os a (EnvSockets.mk (l1 ++ l2))
      = (none, EnvSockets.mk (l1 ++ l2)) ∧
    (∀ (c : SocketAddr) (t : EnvSockets), EnvSockets.has_tcp t c = false →
        EnvSockets.take_tcp os c t = (none, t)) ∧
    (∀ (c : SocketAddr) (t : EnvSockets), EnvSockets.has_udp t c = false →
        EnvSockets.take_udp os c t = (none, t)) := by
  have hx : SocketInfo.matchKind x SocketType.Tcp a = true := by
    simp [SocketInfo.matchKind, hxt, hxa]
  have h1 : ∀ y ∈ l1, SocketInfo.matchKind y SocketType.Tcp a = false :=
    fun y hy => hrest y (List.mem_append_left _ hy)
  refine ⟨?_, ?_, ?_, ?_, ?_, ?_⟩
  · have := remove_split os SocketType.Tcp a l1 x l2 h1 hx
    simpa [EnvSockets.take_tcp, SocketInfo.finalize, hok] using this
  · exact (has_tcp_false_iff (EnvSockets.mk (l1 ++ l2)) a).mpr hrest
  · exact (has_tcp_true_iff (EnvSockets.mk (l1 ++ l2)) b).mpr hb
  · exact remove_not_present os SocketType.Tcp a (EnvSockets.mk (l1 ++ l2)) hrest
  · intro c t ht
    exact remove_not_present os SocketType.Tcp c t ((has_tcp_false_iff t c).mp ht)
  · intro c t ht
    exact remove_not_present os SocketType.Udp c t ((has_udp_false_iff t c).mp ht)

/-- Witness for C3 with TCP descriptors at 127.0.0.1:8080 (fd 3) and
127.0.0.1:9090 (fd 4). -/
theorem take_tcp_spec_witness :
    ((SocketInfo.mk SocketType.Tcp (SocketAddr.mk "127.0.0.1" 8080) 3).socket_type
        = SocketType.Tcp ∧
      (∀ y ∈ ([] ++ [SocketInfo.mk SocketType.Tcp (SocketAddr.mk "127.0.0.1" 9090) 4]),
          SocketInfo.matchKind y SocketType.Tcp (SocketAddr.mk "127.0.0.1" 8080) = false) ∧
      (∃ z ∈ ([] ++ [SocketInfo.mk SocketType.Tcp (SocketAddr.mk "127.0.0.1" 9090) 4]),
          SocketInfo.matchKind z SocketType.Tcp (SocketAddr.mk "127.0.0.1" 9090) = true)) ∧
    EnvSockets.take_tcp (SockOS.mk 1 (fun _ => none) (fun _ => true))
        (SocketAddr.mk "127.0.0.1" 8080)
        (EnvSockets.mk
          [SocketInfo.mk SocketType.Tcp (SocketAddr.mk "127.0.0.1" 8080) 3,
           SocketInfo.mk SocketType.Tcp (SocketAddr.mk "127.0.0.1" 9090) 4])
      = (some 3,
         EnvSockets.mk [SocketInfo.mk SocketType.Tcp (SocketAddr.mk "127.0.0.1" 9090) 4]) ∧
    EnvSockets.has_tcp
        (EnvSockets.mk [SocketInfo.mk SocketType.Tcp (SocketAddr.mk "127.0.0.1" 9090) 4])
        (SocketAddr.mk "127.0.0.1" 8080) = false ∧
    EnvSockets.has_tcp
        (EnvSockets.mk [SocketInfo.mk SocketType.Tcp (SocketAddr.mk "127.0.0.1" 9090) 4])
        (SocketAddr.mk "127.0.0.1" 9090) = true :=
  ⟨⟨rfl, by decide, by decide⟩,
    (take_tcp_spec (SockOS.mk 1 (fun _ => none) (fun _ => true)) []
      [SocketInfo.mk SocketType.Tcp (SocketAddr.mk "127.0.0.1" 9090) 4]
      (SocketInfo.mk SocketType.Tcp (SocketAddr.mk "127.0.0.1" 8080) 3)
      (SocketAddr.mk "127.0.0.1" 8080) (SocketAddr.mk "127.0.0.1" 9090)
      rfl rfl (by decide) (by decide) rfl).1,
    (take_tcp_spec (SockOS.mk 1 (fun _ => none) (fun _ => true)) []
      [SocketInfo.mk SocketType.Tcp (SocketAddr.mk "127.0.0.1" 9090) 4]
      (SocketInfo.mk SocketType.Tcp (SocketAddr.mk "127.0.0.1" 8080) 3)
      (SocketAddr.mk "127.0.0.1" 8080) (SocketAddr.mk "127.0.0.1" 9090)
      rfl rfl (by decide) (by decide) rfl).2.1,
    (take_tcp_spec (SockOS.mk 1 (fun _ => none) (fun _ => true)) []
      [SocketInfo.mk SocketType.Tcp (SocketAddr.mk "127.0.0.1" 9090) 4]
      (SocketInfo.mk SocketType.Tcp (SocketAddr.mk "127.0.0.1" 8080) 3)
      (SocketAddr.mk "127.0.0.1" 8080) (SocketAddr.mk "127.0.0.1" 9090)
      rfl rfl (by decide) (by decide) rfl).2.2.1⟩

/-- C5: with a matching LISTEN_PID and a LISTEN_FDS value parsing to `n`,
`from_env` probes exactly the descriptors listed by `probedFds n`, of
which there are at most `min n 32`, numbered consecutively from 3; for a
count of 1000 at most 32 descriptors are probed. -/
theorem from_env_probe_clamped (os : SockOS) (u : Bool) (env : Env)
    (p fdsStr : String) (n : Nat)
    (hp : env.listen_pid = some p) (hpe : p ≠ "") (hpm : p = toString os.pid)
    (hf : env.listen_fds = some fdsStr) (hn : parseUsize fdsStr = some n) :
    (EnvSockets.from_env os u env).1.fds
      = (probedFds n).filterMap (SocketInfo.from_fd os) ∧
    (probedFds n).length ≤ min n MAX_LISTEN_FDS ∧
    (∀ i : Nat, i < (probedFds n).length →
        (probedFds n)[i]? = some (SD_LISTEN_FDS_START + Int.ofNat i)) ∧
    (probedFds 1000).length ≤ 32 := by
  refine ⟨?_, ?_, ?_, ?_⟩
  · have hcond : env.listen_pid.getD "" ≠ "" ∧
        toString os.pid = env.listen_pid.getD "" := by
      rw [hp]
      exact ⟨by simpa using hpe, by simp [hpm]⟩
    simp [EnvSockets.from_env, hcond, hf, hn]
  · simp only [probedFds, List.length_map, List.length_range]
    exact Nat.le_refl _
  · intro i hi
    simp only [probedFds, List.length_map, List.length_range] at hi
    simp only [probedFds, List.getElem?_map, List.getElem?_range hi,
      Option.map_some']
  · simp only [probedFds, MAX_LISTEN_FDS, List.length_map, List.length_range]
    exact Nat.min_le_right 1000 32

/-- Witness for C5: a LISTEN_FDS value of 1000 with a matching pid. -/
theorem from_env_probe_clamped_witness :
    ((Env.mk (some "7") (some "1000")).listen_pid = some "7" ∧
      ("7" : String) ≠ "" ∧
      ("7" : String) = toString (SockOS.mk 7 (fun _ => none) (fun _ => true)).pid ∧
      parseUsize "1000" = some 1000) ∧
    (EnvSockets.from_env (SockOS.mk 7 (fun _ => none) (fun _ => true)) false
        (Env.mk (some "7") (some "1000"))).1.fds
      = (probedFds 1000).filterMap
          (SocketInfo.from_fd (SockOS.mk 7 (fun _ => none) (fun _ => true))) ∧
    (probedFds 1000).length ≤ 32 :=
  ⟨⟨rfl, by decide, by decide, by decide⟩,
    (from_env_probe_clamped (SockOS.mk 7 (fun _ => none) (fun _ => true)) false
      (Env.mk (some "7") (some "1000")) "7" "1000" 1000
      rfl (by decide) (by decide) rfl (by decide)).1,
    (from_env_probe_clamped (SockOS.mk 7 (fun _ => none) (fun _ => true)) false
      (Env.mk (some "7") (some "1000")) "7" "1000" 1000
      rfl (by decide) (by decide) rfl (by decide)).2.2.2⟩

/-- C9: when the matching descriptor exists but setting FD_CLOEXEC on it
fails, the take and pop operations return nothing while still removing
the descriptor, so a subsequent membership query for the same kind and
address is false (the removed descriptor being the only match). -/
theorem take_pop_fcntl_fail (os : SockOS) :
    (∀ (l1 l2 : List SocketInfo) (x : SocketInfo) (a : SocketAddr),
      x.socket_type = SocketType.Tcp → x.socket_addr = a →
      (∀ y ∈ l1 ++ l2, SocketInfo.matchKind y SocketType.Tcp a = false) →
      os.fcntl_cloexec_ok x.raw_fd = false →
      EnvSockets.take_tcp os a (EnvSockets.mk (l1 ++ x :: l2))
          = (none, EnvSockets.mk (l1 ++ l2)) ∧
      EnvSockets.has_tcp (EnvSockets.mk (l1 ++ l2)) a = false) ∧
    (∀ (l1 l2 : List SocketInfo) (x : SocketInfo) (a : SocketAddr),
      x.socket_type = SocketType.Udp → x.socket_addr = a →
      (∀ y ∈ l1 ++ l2, SocketInfo.matchKind y SocketType.Udp a = false) →
      os.fcntl_cloexec_ok x.raw_fd = false →
      EnvSockets.take_udp os a (EnvSockets.mk (l1 ++ x :: l2))
          = (none, EnvSockets.mk (l1 ++ l2)) ∧
      EnvSockets.has_udp (EnvSockets.mk (l1 ++ l2)) a = false) ∧
    (∀ (l1 l2 : List SocketInfo) (x : SocketInfo),
      x.socket_type = SocketType.Tcp →
      (∀ y ∈ l1, y.socket_type ≠ SocketType.Tcp) →
      (∀ y ∈ l1 ++ l2, SocketInfo.matchKind y SocketType.Tcp x.socket_addr = false) →
      os.fcntl_cloexec_ok x.raw_fd = false →
      EnvSockets.pop_tcp os (EnvSockets.mk (l1 ++ x :: l2))
          = (none, EnvSockets.mk (l1 ++ l2)) ∧
      EnvSockets.has_tcp (EnvSockets.mk (l1 ++ l2)) x.socket_addr = false) ∧
    (∀ (l1 l2 : List SocketInfo) (x : SocketInfo),
      x.socket_type = SocketType.Udp →
      (∀ y ∈ l1, y.socket_type ≠ SocketType.Udp) →
      (∀ y ∈ l1 ++ l2, SocketInfo.matchKind y SocketType.Udp x.socket_addr = false) →
      os.fcntl_cloexec_ok x.raw_fd = false →
      EnvSockets.pop_udp os (EnvSockets.mk (l1 ++ x :: l2))
          = (none, EnvSockets.mk (l1 ++ l2)) ∧
      EnvSockets.has_udp (EnvSockets.mk (l1 ++ l2)) x.socket_addr = false) := by
  refine ⟨?_, ?_, ?_, ?_⟩
  · intro l1 l2 x a hxt hxa hrest hbad
    have hx : SocketInfo.matchKind x SocketType.Tcp a = true := by
      simp [SocketInfo.matchKind, hxt, hxa]
    have h1 : ∀ y ∈ l1, SocketInfo.matchKind y SocketType.Tcp a = false :=
      fun y hy => hrest y (List.mem_append_left _ hy)
    have := remove_split os SocketType.Tcp a l1 x l2 h1 hx
    exact ⟨by simpa [EnvSockets.take_tcp, SocketInfo.finalize, hbad] using this,
      (has_tcp_false_iff (EnvSockets.mk (l1 ++ l2)) a).mpr hrest⟩
  · intro l1 l2 x a hxt hxa hrest hbad
    have hx : SocketInfo.matchKind x SocketType.Udp a = true := by
      simp [SocketInfo.matchKind, hxt, hxa]
    have h1 : ∀ y ∈ l1, SocketInfo.matchKind y SocketType.Udp a = false :=
      fun y hy => hrest y (List.mem_append_left _ hy)
    have := remove_split os SocketType.Udp a l1 x l2 h1 hx
    exact ⟨by simpa [EnvSockets.take_udp, SocketInfo.finalize, hbad] using this,
      (has_udp_false_iff (EnvSockets.mk (l1 ++ l2)) a).mpr hrest⟩
  · intro l1 l2 x hxt hfirst hrest hbad
    have h1 : ∀ y ∈ l1, decide (y.socket_type = SocketType.Tcp) = false :=
      fun y hy => decide_eq_false (hfirst y hy)
    have := pop_split os SocketType.Tcp l1 x l2 h1 hxt
    exact ⟨by simpa [EnvSockets.pop_tcp, SocketInfo.finalize, hbad] using this,
      (has_tcp_false_iff (EnvSockets.mk (l1 ++ l2)) x.socket_addr).mpr hrest⟩
  · intro l1 l2 x hxt hfirst hrest hbad
    have h1 : ∀ y ∈ l1, decide (y.socket_type = SocketType.Udp) = false :=
      fun y hy => decide_eq_false (hfirst y hy)
    have := pop_split os SocketType.Udp l1 x l2 h1 hxt
    exact ⟨by simpa [EnvSockets.pop_udp, SocketInfo.finalize, hbad] using this,
      (has_udp_false_iff (EnvSockets.mk (l1 ++ l2)) x.socket_addr).mpr hrest⟩

/-- Witness for C9: one TCP descriptor at 127.0.0.1:8080 whose FD_CLOEXEC
flag cannot be set is removed by `take_tcp` yet nothing is returned. -/
theorem take_pop_fcntl_fail_witness :
    ((SocketInfo.mk SocketType.Tcp (SocketAddr.mk "127.0.0.1" 8080) 5).socket_type
        = SocketType.Tcp ∧
      (SockOS.mk 1 (fun _ => none) (fun _ => false)).fcntl_cloexec_ok 5 = false) ∧
    EnvSockets.take_tcp (SockOS.mk 1 (fun _ => none) (fun _ => false))
        (SocketAddr.mk "127.0.0.1" 8080)
        (EnvSockets.mk [SocketInfo.mk SocketType.Tcp (SocketAddr.mk "127.0.0.1" 8080) 5])
      = (none, EnvSockets.mk []) ∧
    EnvSockets.has_tcp (EnvSockets.mk []) (SocketAddr.mk "127.0.0.1" 8080) = false :=
  ⟨⟨rfl, rfl⟩,
    ((take_pop_fcntl_fail (SockOS.mk 1 (fun _ => none) (fun _ => false))).1
      [] [] (SocketInfo.mk SocketType.Tcp (SocketAddr.mk "127.0.0.1" 8080) 5)
      (SocketAddr.mk "127.0.0.1" 8080) rfl rfl (by decide) rfl).1,
    ((take_pop_fcntl_fail (SockOS.mk 1 (fun _ => none) (fun _ => false))).1
      [] [] (SocketInfo.mk SocketType.Tcp (SocketAddr.mk "127.0.0.1" 8080) 5)
      (SocketAddr.mk "127.0.0.1" 8080) rfl rfl (by decide) rfl).2⟩

end Daemonbase
